import Mathlib

/-!
Verification development for the hardware capability assessor
(`agents/hw_assessor/__init__.py`).  The Python source is embedded shallowly:
pure functions become Lean functions, the process-wide privilege state and
command log become explicit state passing, Python floats are modelled as
rationals, fallible code (Python exceptions) returns `Option`/`Except`, and
the behaviour of external subprocesses is supplied as explicit environment
values.  Theorems at the end settle the specification's claims against these
definitions.
-/

namespace HwAssessor

/-! ## Character classes and models of Python string builtins

The source parses ASCII tool output; the character classes below model the
regex classes `\d`, `\s`, `\w` and the Python string methods on that ASCII
fragment (full Unicode behaviour is not modelled; no tool output involved in
any claim leaves ASCII). -/

def isSpaceChar (c : Char) : Bool :=
  c = ' ' || c = '\t' || c = '\n' || c = '\r' || c = '\x0b' || c = '\x0c'

def isWordChar (c : Char) : Bool :=
  c.isAlphanum || c = '_'

/-- Numeric value of a run of decimal digits, as computed by Python `int`. -/
def digitsToNat (ds : List Char) : Nat :=
  ds.foldl (fun acc c => acc * 10 + (c.toNat - '0'.toNat)) 0

/-- Does `pre` occur at the very start of `cs`?  (Model of an anchored literal
match used to implement the regex searches below.) -/
def startsWithU : List Char → List Char → Bool
  | [], _ => true
  | _ :: _, [] => false
  | p :: ps, c :: cs => p = c && startsWithU ps cs

/-- Substring test: model of Python's `needle in haystack`. -/
def containsSub (needle : List Char) : List Char → Bool
  | [] => needle.isEmpty
  | c :: cs => startsWithU needle (c :: cs) || containsSub needle cs

/-- Model of Python `str.lower()` (ASCII fragment). -/
def pyLowerStr (s : String) : String :=
  String.mk (s.data.map Char.toLower)

/-- Model of Python `str.strip()` (ASCII whitespace). -/
def pyStrip (s : String) : String :=
  String.mk (((s.data.dropWhile isSpaceChar).reverse.dropWhile isSpaceChar).reverse)

/-- Truthiness of an optional string (`None` and `""` are falsy). -/
def truthy : Option String → Bool
  | some s => !(s = "")
  | none => false

/-- Model of Python `a or b` on optional strings: the first operand when
truthy, otherwise the second operand verbatim. -/
def pyOrS (a b : Option String) : Option String :=
  if truthy a then a else b

/-- Model of Python `a or b` on plain strings. -/
def pyOrStr (a b : String) : String :=
  if a = "" then b else a

/-- Model of Python `str.split()` with no argument: split on whitespace runs,
discarding empty pieces. -/
def pySplitWs (s : String) : List String :=
  (s.split (fun c => isSpaceChar c)).filter (fun t => !(t = ""))

/-- Model of Python `int(s)` on an optional sign followed by decimal digits;
other inputs raise `ValueError`, modelled as `none`.  (The underscore digit
separators Python also accepts never occur in the diagnostic output parsed
here and are not modelled.) -/
def pyInt (s : String) : Option Int :=
  match s.data with
  | [] => none
  | '-' :: ds =>
      if !ds.isEmpty && ds.all Char.isDigit then some (-(digitsToNat ds : Int)) else none
  | '+' :: ds =>
      if !ds.isEmpty && ds.all Char.isDigit then some (digitsToNat ds : Int) else none
  | ds =>
      if ds.all Char.isDigit then some (digitsToNat ds : Int) else none

/-- Value of `sign? digits [. digits]` as a rational. -/
def decimalToRat (neg : Bool) (ip fp : List Char) : ℚ :=
  let mag : ℚ := (digitsToNat ip : ℚ) + (digitsToNat fp : ℚ) / ((10 : ℚ) ^ fp.length)
  if neg then -mag else mag

/-- Model of Python `float(s)` on the plain decimal literals produced by
`lscpu` (optional sign, digits, optional fraction); the other forms `float`
accepts (exponents, `inf`, `nan`) never occur in that output and are modelled
as `none` (an exception). -/
def pyFloat (s : String) : Option ℚ :=
  let core : List Char → Option ℚ := fun cs =>
    let ip := cs.takeWhile Char.isDigit
    match cs.dropWhile Char.isDigit with
    | [] => if ip.isEmpty then none else some (decimalToRat false ip [])
    | '.' :: rest =>
        let fp := rest.takeWhile Char.isDigit
        if !(rest.dropWhile Char.isDigit).isEmpty then none
        else if ip.isEmpty && fp.isEmpty then none
        else some (decimalToRat false ip fp)
    | _ => none
  match s.data with
  | '-' :: cs => (core cs).map (fun q => -q)
  | '+' :: cs => core cs
  | cs => core cs

/-- `int(s.split()[0])`: first whitespace token parsed as an int; an empty
token list (`IndexError`) or an unparseable token (`ValueError`) raises. -/
def pyIntFirstTok (s : String) : Option Int :=
  match pySplitWs s with
  | [] => none
  | t :: _ => pyInt t

/-- `float(s.split()[0])`, with the same failure modes as `pyIntFirstTok`. -/
def pyFloatFirstTok (s : String) : Option ℚ :=
  match pySplitWs s with
  | [] => none
  | t :: _ => pyFloat t

/-! ## Regex models

The source uses three regular-expression shapes; each is modelled as an
executable function, including the digit-run backtracking a Python regex
engine performs. -/

/-- Backtracking step for `re.match(r"(\d+)\s*(\w+)", _)`: try digit-group
lengths from `k` down to 1 (the engine first consumes the maximal digit run
and then gives digits back when the rest of the pattern fails; `\s*` never
needs to backtrack because `\s` and `\w` are disjoint). -/
def capMatchTry : Nat → List Char → List Char → Option (List Char × List Char)
  | 0, _, _ => none
  | Nat.succ k, ds, rest =>
      let pre := ds.take (Nat.succ k)
      let rem := ds.drop (Nat.succ k) ++ rest
      let word := (rem.dropWhile isSpaceChar).takeWhile isWordChar
      if word.isEmpty then capMatchTry k ds rest else some (pre, word)

/-- Model of `re.match(r"(\d+)\s*(\w+)", text)`, returning the two groups. -/
def capMatch (cs : List Char) : Option (List Char × List Char) :=
  let ds := cs.takeWhile Char.isDigit
  capMatchTry ds.length ds (cs.dropWhile Char.isDigit)

/-- Case handling for the unit literals of the search regexes: `ci = true`
models the `re.IGNORECASE` flag. -/
def unitMatch (ci : Bool) (unit cs : List Char) : Bool :=
  if ci then startsWithU (unit.map Char.toUpper) (cs.map Char.toUpper)
  else startsWithU unit cs

/-- Backtracking step for `re.search(r"(\d+)\s*(U1|U2|...)", _)` at one start
position: try digit-group lengths from `k` down to 1, then spaces, then the
first alternation branch that matches. -/
def searchTryDigits (ci : Bool) (units : List (List Char)) :
    Nat → List Char → List Char → Option (Nat × List Char)
  | 0, _, _ => none
  | Nat.succ k, ds, rest =>
      let rem := ds.drop (Nat.succ k) ++ rest
      let rem2 := rem.dropWhile isSpaceChar
      match units.find? (fun u => unitMatch ci u rem2) with
      | some u => some (digitsToNat (ds.take (Nat.succ k)), u)
      | none => searchTryDigits ci units k ds rest

/-- Model of `re.search(r"(\d+)\s*(U1|U2|...)", text)`: scan start positions
left to right; at each, match a digit run, optional spaces, and one of the
unit literals; return `int(group(1))` and the canonical unit that matched. -/
def searchNumUnit (ci : Bool) (units : List (List Char)) : List Char → Option (Nat × List Char)
  | [] => none
  | c :: cs =>
      let ds := (c :: cs).takeWhile Char.isDigit
      match searchTryDigits ci units ds.length ds ((c :: cs).dropWhile Char.isDigit) with
      | some r => some r
      | none => searchNumUnit ci units cs

/-- `re.findall(r"(\d+)", _)`: the maximal decimal-digit runs, left to right.
`acc` holds the digits of the run currently being read, in reverse. -/
def digitRunsAux : List Char → List Char → List (List Char)
  | [], acc => if acc.isEmpty then [] else [acc.reverse]
  | c :: cs, acc =>
      if c.isDigit then digitRunsAux cs (c :: acc)
      else if acc.isEmpty then digitRunsAux cs []
      else acc.reverse :: digitRunsAux cs []

def digitRuns (cs : List Char) : List (List Char) :=
  digitRunsAux cs []

/-! ## The three text parsers (`parse_size_to_gb`, `parse_speed_mts`, and the
`parse_capacity` closure of `collect_memory_info`) -/

/-- `parse_size_to_gb`: size text to gigabytes; absent, "No Module", or
unparseable text yields 0.0 (this is the summation-friendly default). -/
def parse_size_to_gb (text : Option String) : ℚ :=
  match text with
  | none => 0
  | some t =>
      if t = "" then 0
      else if containsSub ("No Module".data) t.data then 0
      else
        match searchNumUnit true ["GB".data, "MB".data] t.data with
        | none => 0
        | some (v, u) => if u = "MB".data then (v : ℚ) / 1024 else (v : ℚ)

/-- The integer runs of a text, as parsed by `parse_speed_mts`. -/
def extractedValues (t : String) : List Nat :=
  (digitRuns t.data).map digitsToNat

/-- `parse_speed_mts`: scan the extracted integers from the end and return the
first one that is at least 1000; otherwise the maximum of all of them; absent
text or text without digits yields `None`. -/
def parse_speed_mts (text : Option String) : Option Nat :=
  match text with
  | none => none
  | some t =>
      if t = "" then none
      else
        let values := extractedValues t
        if values.isEmpty then none
        else
          match values.reverse.find? (fun v => decide (1000 ≤ v)) with
          | some v => some v
          | none =>
              match values with
              | [] => none
              | v :: vs => some (vs.foldl Nat.max v)

/-- Unit dispatch of `parse_capacity` (the `if unit.startswith` chain). -/
def capacityFromUnit (value : Nat) (unit : List Char) : Option ℚ :=
  let u := unit.map Char.toUpper
  if startsWithU ("PB".data) u then some ((value : ℚ) * 1024 * 1024)
  else if startsWithU ("TB".data) u then some ((value : ℚ) * 1024)
  else if startsWithU ("GB".data) u then some (value : ℚ)
  else if startsWithU ("MB".data) u then some ((value : ℚ) / 1024)
  else none

/-- The `parse_capacity` closure inside `collect_memory_info`: leading integer
plus unit token, normalised to gigabytes; unparseable or absent text yields
`None`. -/
def parse_capacity (text : Option String) : Option ℚ :=
  match text with
  | none => none
  | some t =>
      if t = "" then none
      else
        match capMatch t.data with
        | none => none
        | some (ds, unit) => capacityFromUnit (digitsToNat ds) unit

example : parse_size_to_gb (some "32 GB") = 32 := by
  have h : searchNumUnit true ["GB".data, "MB".data] ("32 GB".data) = some (32, "GB".data) := by
    decide
  have hc : containsSub ("No Module".data) ("32 GB".data) = false := by decide
  simp [parse_size_to_gb, h, hc]

example : parse_size_to_gb (some "512 MB") = 1 / 2 := by
  have h : searchNumUnit true ["GB".data, "MB".data] ("512 MB".data) = some (512, "MB".data) := by
    decide
  have hc : containsSub ("No Module".data) ("512 MB".data) = false := by decide
  simp [parse_size_to_gb, h, hc]
  norm_num

example : parse_capacity (some "2 TB") = some 2048 := by
  have h : capMatch ("2 TB".data) = some (['2'], ['T', 'B']) := by decide
  simp [parse_capacity, h, capacityFromUnit, startsWithU, digitsToNat]
  norm_num

example : parse_capacity (some "1 PB") = some 1048576 := by
  have h : capMatch ("1 PB".data) = some (['1'], ['P', 'B']) := by decide
  simp [parse_capacity, h, capacityFromUnit, startsWithU, digitsToNat]
  norm_num

example : parse_speed_mts (some "DDR5-4800") = some 4800 := by decide
example : parse_speed_mts (some "DDR3 800 667") = some 800 := by decide

/-! ## Data model

Each structure models one of the loosely-typed Python dictionaries, restricted
to the keys the embedded functions actually read. -/

/-- One `Memory Device` record from `collect_memory_info` (the keys read by
`metrics_from_data`). -/
structure Module where
  size : Option String := none
  locator : Option String := none
  configuredMemorySpeed : Option String := none
  speed : Option String := none
deriving DecidableEq

/-- The dictionary returned by `collect_memory_info`. -/
structure MemInfo where
  devices : List Module := []
  max_capacity_gb : Option ℚ := none
  ecc : Option String := none
  slot_count : Option Int := none

/-- One `lsblk` disk entry (the only key the embedded functions read is the
transport). -/
structure Disk where
  tran : Option String := none
deriving DecidableEq

/-- One `nvidia-smi` entry from `collect_gpu`. -/
structure NvGpu where
  name : String := ""
  memory : String := ""
deriving DecidableEq

/-- The `lscpu` dictionary from `collect_cpu_info`, restricted to the keys
`metrics_from_data` reads; a field is `none` when the key is absent. -/
structure CpuDict where
  cpus : Option String := none
  sockets : Option String := none
  coresPerSocket : Option String := none
  maxMhz : Option String := none
  curMhz : Option String := none
  minMhz : Option String := none
  virtualization : Option String := none
  modelName : Option String := none
  architecture : Option String := none

/-- The dictionary returned by `metrics_from_data`. -/
structure Metrics where
  cpu_model : String := "Unknown"
  cpu_arch : String := ""
  threads : Int := 0
  cores : Int := 0
  cpu_max_ghz : ℚ := 0
  cpu_min_ghz : ℚ := 0
  cpu_cur_ghz : ℚ := 0
  virtualization : String := ""
  ram_total_gb : ℚ := 0
  ram_slots : Int := 0
  ram_populated : Int := 0
  ram_empty : Int := 0
  ram_modules : List Module := []
  ram_max_capacity_gb : Option ℚ := none
  ram_ecc : Option String := none
  ram_configured_speed_mts : Option Nat := none
  has_dedicated_gpu : Bool := false
  gpu_vram_gb : ℚ := 0
  storage_nvme : Nat := 0
  storage_total : Nat := 0

/-! ## Metrics derivation (`metrics_from_data`) -/

/-- Truthiness of an optional int (`None` and `0` are falsy). -/
def truthyI : Option Int → Bool
  | some n => !(n = 0)
  | none => false

/-- The CPU-field prologue of `metrics_from_data`: the six lines extracting
threads, sockets, cores per socket and the three frequencies.  A Python
`int()`/`float()`/indexing failure there raises, modelled as `none`. -/
def cpuNumbers (cpu : CpuDict) : Option (Int × Int × Int × ℚ × ℚ × ℚ) := do
  let threads ← if truthy cpu.cpus then pyIntFirstTok (cpu.cpus.getD "0") else some 0
  let sockets ← if truthy cpu.sockets then pyIntFirstTok (cpu.sockets.getD "1") else some 1
  let cores_per_socket ←
    if truthy cpu.coresPerSocket then pyIntFirstTok (cpu.coresPerSocket.getD "0") else some 0
  let max_mhz ← if truthy cpu.maxMhz then pyFloatFirstTok (cpu.maxMhz.getD "0") else some (0 : ℚ)
  let cur_mhz ← if truthy cpu.curMhz then pyFloatFirstTok (cpu.curMhz.getD "0") else some (0 : ℚ)
  let min_mhz ← if truthy cpu.minMhz then pyFloatFirstTok (cpu.minMhz.getD "0") else some (0 : ℚ)
  pure (threads, sockets, cores_per_socket, max_mhz, cur_mhz, min_mhz)

/-- Does a `lspci` line indicate a dedicated GPU?  (The generator expression
inside `metrics_from_data`'s `has_dedicated_gpu`.) -/
def lineIndicatesDedicated (line : String) : Bool :=
  let low := (pyLowerStr line).data
  containsSub ("nvidia".data) low ||
    (containsSub ("amd".data) low && containsSub ("graphics".data) low)

/-- The live total in gigabytes: the `total_mem_mb / 1024 if total_mem_mb
else 0.0` expression of `metrics_from_data`. -/
def liveTotalGb (total_mem_mb : Option Nat) : ℚ :=
  match total_mem_mb with
  | some n => if n = 0 then 0 else (n : ℚ) / 1024
  | none => 0

/-- One step of the `for gpu in gpus_nv` VRAM loop: search the memory text for
a MiB and a GiB figure, preferring GiB verbatim and converting MiB by 1024. -/
def gpuVramStep (acc : ℚ) (g : NvGpu) : ℚ :=
  let match_mib := searchNumUnit false ["MiB".data] g.memory.data
  let match_gib := searchNumUnit false ["GiB".data] g.memory.data
  match match_gib with
  | some (v, _) => max acc (v : ℚ)
  | none =>
      match match_mib with
      | some (v, _) => max acc ((v : ℚ) / 1024)
      | none => acc

/-- `metrics_from_data`: fuse the collector records into the metrics
dictionary.  `total_mem_mb` is the optional `free -m` total.  The result is
`none` exactly when the Python version would raise while parsing a CPU
field. -/
def metrics_from_data (cpu : CpuDict) (mem_info : MemInfo) (total_mem_mb : Option Nat)
    (gpus_pci : List String) (gpus_nv : List NvGpu) (disks : List Disk) : Option Metrics :=
  (cpuNumbers cpu).map fun x =>
    match x with
    | (threads, sockets, cores_per_socket, max_mhz, cur_mhz, min_mhz) =>
      let cores : Int := if cores_per_socket = 0 then 0 else sockets * cores_per_socket
      let virtualization := cpu.virtualization.getD ""
      let mem_devices := mem_info.devices
      let live : ℚ := liveTotalGb total_mem_mb
      let mem_total_gb : ℚ :=
        if live = 0 then (mem_devices.map (fun d => parse_size_to_gb d.size)).sum else live
      let declared_slots := mem_info.slot_count
      let populated : Int :=
        ((mem_devices.filter (fun d => decide (0 < parse_size_to_gb d.size))).length : Int)
      let slotsEmpty : Int × Int :=
        if truthyI declared_slots then
          (declared_slots.getD 0, max (declared_slots.getD 0 - populated) 0)
        else
          let slots : Int := ((mem_devices.filter (fun d => truthy d.locator)).length : Int)
          (slots, max (slots - populated) 0)
      let speeds : List Nat :=
        mem_devices.filterMap fun d =>
          match parse_speed_mts (pyOrS d.configuredMemorySpeed d.speed) with
          | some n => if n = 0 then none else some n
          | none => none
      let configured_speed : Option Nat :=
        match speeds with
        | [] => none
        | v :: vs => some (vs.foldl Nat.max v)
      let has_dedicated_gpu :=
        gpus_pci.any lineIndicatesDedicated || !gpus_nv.isEmpty
      let gpu_vram_gb : ℚ := gpus_nv.foldl gpuVramStep 0
      let storage_nvme : Nat :=
        (disks.filter (fun d => pyLowerStr (d.tran.getD "") = "nvme")).length
      { cpu_model := cpu.modelName.getD "Unknown"
        cpu_arch := cpu.architecture.getD ""
        threads := threads
        cores := cores
        cpu_max_ghz := if max_mhz = 0 then 0 else max_mhz / 1000
        cpu_min_ghz := if min_mhz = 0 then 0 else min_mhz / 1000
        cpu_cur_ghz := if cur_mhz = 0 then 0 else cur_mhz / 1000
        virtualization := virtualization
        ram_total_gb := mem_total_gb
        ram_slots := slotsEmpty.1
        ram_populated := populated
        ram_empty := slotsEmpty.2
        ram_modules := mem_devices
        ram_max_capacity_gb := mem_info.max_capacity_gb
        ram_ecc := mem_info.ecc
        ram_configured_speed_mts := configured_speed
        has_dedicated_gpu := has_dedicated_gpu
        gpu_vram_gb := gpu_vram_gb
        storage_nvme := storage_nvme
        storage_total := disks.length }

/-! ## Role and advisory heuristics -/

/-- Round to the nearest integer, ties to even, on the exact rational value
(model of the rounding Python's fixed-point string formatting performs; the
double-rounding a binary float can introduce is not modelled, and the values
formatted in this program are nonnegative). -/
def roundHalfEven (q : ℚ) : Int :=
  let f := ⌊q⌋
  if q - f < 1 / 2 then f
  else if (1 : ℚ) / 2 < q - f then f + 1
  else if f % 2 = 0 then f else f + 1

/-- Model of the Python format spec `:.0f` for nonnegative values. -/
def fmt0 (q : ℚ) : String :=
  toString (roundHalfEven q)

/-- Model of the Python format spec `:.1f` for nonnegative values. -/
def fmt1 (q : ℚ) : String :=
  let n := roundHalfEven (q * 10)
  toString (n / 10) ++ "." ++ toString (n % 10)

/-- The `pack` record of `role_rating`. -/
structure RoleRating where
  rating : String
  summary : String
  notes : List String := []
deriving DecidableEq

/-- The dictionary `role_rating` returns, one entry per fixed role key. -/
structure Ratings where
  developer_workstation : RoleRating
  developer_server : RoleRating
  llm_ml : RoleRating
  media_streaming : RoleRating
  nas_db : RoleRating

/-- The "Developer workstation" branch of `role_rating`. -/
def rateWorkstation (m : Metrics) : RoleRating :=
  if 16 ≤ m.threads ∧ 32 ≤ m.ram_total_gb then
    { rating := "Excellent",
      summary := "Plenty of CPU threads and RAM for IDEs, containers, and VMs." }
  else if 8 ≤ m.threads ∧ 16 ≤ m.ram_total_gb then
    { rating := "Good",
      summary := "Solid balance; consider RAM or NVMe upgrades if workloads grow." }
  else
    { rating := "Limited", summary := "Basic dev work only; more cores or RAM would help." }

/-- The "Developer server" branch of `role_rating`, including its running
`server_notes` accumulation. -/
def rateServer (m : Metrics) : RoleRating :=
  let server_notes :=
    if !(m.virtualization = "") then
      ["Virtualization extensions detected (" ++ m.virtualization ++ ")."]
    else []
  if 64 ≤ m.ram_total_gb ∧ 24 ≤ m.threads then
    { rating := "Good", summary := "Comfortable for multiple VMs or container stacks.",
      notes := server_notes }
  else if 32 ≤ m.ram_total_gb ∧ 16 ≤ m.threads then
    { rating := "Limited", summary := "Can host a few services; heavier use may need upgrades.",
      notes := server_notes ++ ["Consider more RAM or ECC platform for heavier multi-tenant loads."] }
  else
    { rating := "Not ideal", summary := "Upgrade RAM/CPU or offload heavier services.",
      notes := server_notes ++ ["Specs under typical server thresholds; keep workloads light."] }

/-- The "LLM / ML" branch of `role_rating`. -/
def rateLlmMl (m : Metrics) : RoleRating :=
  if m.has_dedicated_gpu then
    if 16 ≤ m.gpu_vram_gb then
      { rating := "Fair",
        summary := "Discrete GPU with about " ++ fmt1 m.gpu_vram_gb ++
          " GB VRAM supports small/medium models." }
    else if 8 ≤ m.gpu_vram_gb then
      { rating := "Limited",
        summary := "Approximately " ++ fmt1 m.gpu_vram_gb ++
          " GB VRAM; use distilled models or consider external GPU.",
        notes := ["VRAM limits you to compact or quantized models."] }
    else
      { rating := "Limited",
        summary := "Add a higher-VRAM GPU or use cloud resources for serious ML.",
        notes := ["GPU VRAM is minimal for ML; expect CPU-bound inference."] }
  else
    { rating := "Not ideal", summary := "Add a discrete GPU or use cloud resources.",
      notes := ["No discrete GPU detected; ML workloads will be CPU-bound and slow."] }

/-- The "Media / streaming" branch of `role_rating`. -/
def rateMedia (m : Metrics) : RoleRating :=
  if m.has_dedicated_gpu then
    { rating := "Good", summary := "Discrete GPU should accelerate encoding and multiple streams." }
  else
    { rating := "Limited", summary := "Consider adding a discrete GPU or hardware encoder.",
      notes := ["Integrated graphics can handle light streaming; heavy multi-stream loads may struggle."] }

/-- The "NAS / DB" branch of `role_rating`. -/
def rateNas (m : Metrics) : RoleRating :=
  if 3 ≤ m.storage_total ∨ 2 ≤ m.storage_nvme then
    { rating := "Fair", summary := "Usable for lightweight NAS/DB duties.",
      notes := ["Multiple drives present; add redundancy (RAID/ZFS) as needed."] }
  else
    { rating := "Limited", summary := "Expand storage and consider ECC memory for reliability.",
      notes := ["Only one storage device detected; add more drives for redundancy and performance."] }

/-- `role_rating`: the five decision tables, one per role key. -/
def role_rating (m : Metrics) : Ratings :=
  { developer_workstation := rateWorkstation m
    developer_server := rateServer m
    llm_ml := rateLlmMl m
    media_streaming := rateMedia m
    nas_db := rateNas m }

/-- Truthiness of an optional rational (`None` and `0.0` are falsy). -/
def truthyQ : Option ℚ → Bool
  | some q => !(q = 0)
  | none => false

/-- `upgrade_suggestions`: the ordered, conditional advisory tips.  The
`disks` parameter is accepted but unused, exactly as in the source. -/
def upgrade_suggestions (m : Metrics) (disks : List Disk) (nvme_raw : String)
    (storage_hint_text : String) : List String :=
  let _ := disks
  let tips : List String := []
  let tips :=
    if 0 < m.ram_empty then
      tips ++ ["Populate the " ++ toString m.ram_empty ++ " empty memory slot(s) to expand RAM."]
    else if !(m.ram_total_gb = 0) && truthyQ m.ram_max_capacity_gb then
      if m.ram_total_gb < m.ram_max_capacity_gb.getD 0 then
        tips ++ ["Replace existing SODIMMs to move toward the " ++
          fmt0 (m.ram_max_capacity_gb.getD 0) ++ " GB platform ceiling."]
      else
        tips ++ ["System is already at the reported maximum memory capacity."]
    else tips
  let tips :=
    if m.storage_total ≤ 1 then
      tips ++ ["Only one storage device detected; add another NVMe/SATA drive for capacity or redundancy."]
    else tips
  let tips :=
    if !m.has_dedicated_gpu then
      tips ++ ["No discrete GPU detected; add one if ML or media workloads are important and the chassis supports it."]
    else tips
  let tips :=
    if !(storage_hint_text = "") &&
        containsSub ("likely free".data) (pyLowerStr storage_hint_text).data then
      tips ++ ["Use the free M.2 slot for a second NVMe SSD if additional fast storage is needed."]
    else tips
  let tips :=
    if !(nvme_raw = "") && !containsSub ("Device".data) nvme_raw.data then
      tips ++ ["Install nvme-cli for deeper NVMe diagnostics (temperature, firmware, spare space)."]
    else tips
  tips

/-- The "Upgrade Opportunities" section of `format_markdown` (the only report
fragment a claim refers to): each tip as a bullet, or the explicit
no-suggestions line when the tip list is empty. -/
def formatUpgradeSection (tips : List String) : List String :=
  ["## Upgrade Opportunities"] ++
    (if !tips.isEmpty then tips.map (fun tip => "- " ++ tip)
     else ["- No obvious upgrades suggested by current readings."]) ++ [""]

/-! ## Privilege negotiator (`configure_privileges`) -/

/-- The process-wide `PrivilegeState` dataclass. -/
structure PrivilegeState where
  is_root : Bool := false
  use_sudo : Bool := false
  requires_password : Bool := false
  password : Option String := none
  mode : String := "auto"
  configured : Bool := false
deriving DecidableEq

/-- The environment `configure_privileges` consults: effective uid, the
outcome of the non-interactive `sudo -n true` probe, the secret `getpass`
reads, and the outcome of `sudo -S -v` validation per secret. -/
structure PrivEnv where
  geteuidZero : Bool := false
  sudoNoninteractiveOk : Bool := false
  promptedPassword : String := ""
  validatePassword : String → Bool := fun _ => false

/-- A Python exception escaping a modelled function. -/
inductive PyError : Type where
  | valueError (msg : String)
  | systemExit (code : Int)
deriving DecidableEq

/-- `configure_privileges(mode, prompt_password)`, acting on the process-wide
state `st`: decides whether sudo is used, prompting for and validating a
secret when allowed; raises `SystemExit(1)` when `require` mode cannot obtain
credentials. -/
def configure_privileges (mode : String) (prompt_password : Bool) (env : PrivEnv)
    (st : PrivilegeState) : Except PyError PrivilegeState :=
  let mode := pyLowerStr mode
  if mode ∉ (["auto", "skip", "require"] : List String) then
    .error (.valueError ("Invalid sudo mode: " ++ mode))
  else
    let st := { st with mode := mode, is_root := env.geteuidZero, configured := true,
                        use_sudo := false, requires_password := false, password := none }
    if st.is_root then .ok st
    else if mode = "skip" then .ok st
    else if env.sudoNoninteractiveOk then .ok { st with use_sudo := true }
    else if prompt_password || mode = "require" then
      let password := env.promptedPassword
      if !(password = "") && env.validatePassword password then
        .ok { st with use_sudo := true, requires_password := true, password := some password }
      else if mode = "require" then .error (.systemExit 1)
      else .ok st
    else .ok st

/-- `configure_privileges()` with its default arguments (`"auto"`, no prompt)
never raises; `run` invokes it through this total wrapper (see
`configure_auto_never_raises`). -/
def configureAuto (env : PrivEnv) (st : PrivilegeState) : PrivilegeState :=
  match configure_privileges "auto" false env st with
  | .ok s => s
  | .error _ => st

theorem configure_auto_never_raises (env : PrivEnv) (st : PrivilegeState) :
    configure_privileges "auto" false env st = .ok (configureAuto env st) := by
  have hm : pyLowerStr "auto" = "auto" := by decide
  simp only [configure_privileges, configureAuto, hm]
  split_ifs <;> first | rfl | simp_all

/-! ## Command execution guardrail (`run`) -/

/-- The `CommandResult` dataclass. -/
structure CommandResult where
  cmd : List String
  stdout : String := ""
  stderr : String := ""
  returncode : Option Int := none
  timed_out : Bool := false
  error : Option String := none
  duration : Option ℚ := none
deriving DecidableEq

/-- The `CommandResult.success` property: no failure reason recorded, no
timeout, and an exit code of 0 or none. -/
def CommandResult.success (r : CommandResult) : Bool :=
  (match r.error with
   | none => true
   | some e => e = "") &&
    !r.timed_out && (r.returncode = some 0 || r.returncode = none)

/-- How one `subprocess.run` invocation ends: executable missing
(`FileNotFoundError`), wall-clock timeout with partial output
(`TimeoutExpired`; `None` partial streams are modelled as `""`), or
completion with an exit code and captured streams. -/
inductive ExecEvent : Type where
  | notFound
  | timedOut (partialOut partialErr : String)
  | completed (returncode : Int) (stdout stderr : String)
deriving DecidableEq

/-- The environment of one `run` call: the privilege probes it may trigger,
the subprocess outcome, and the elapsed `time.perf_counter` delta. -/
structure RunEnv where
  privEnv : PrivEnv := {}
  event : ExecEvent := .notFound
  elapsed : ℚ := 0

/-- The process-wide mutable state `run` touches: `_PRIV_STATE`,
`_WARNED_MISSING_SUDO`, and `_COMMAND_LOG`. -/
structure RunState where
  priv : PrivilegeState := {}
  warned_missing_sudo : Bool := false
  log : List CommandResult := []

/-- Format of the timeout message's `f"{timeout:.1f}"` fragment. -/
def timeoutMsg (timeout : ℚ) (full_cmd : List String) : String :=
  "Timed out after " ++ fmt1 timeout ++ "s: " ++ String.intercalate " " full_cmd

/-- The guardrail `run(cmd, timeout=..., optional=..., needs_root=...)`.
Returns the produced `CommandResult` and the updated process state; every
path appends exactly the produced result to the log.  (When both `full_cmd`
and `cmd` are empty the Python not-found branch would raise `IndexError`
building its message; no caller passes an empty command and the message then
uses the empty string here.) -/
def run (cmd : List String) (timeout : ℚ) (optional needs_root : Bool) (env : RunEnv)
    (st : RunState) : CommandResult × RunState :=
  let needsPriv := needs_root && !st.priv.is_root
  let priv := if needsPriv && !st.priv.configured then configureAuto env.privEnv st.priv
              else st.priv
  let warned :=
    if needsPriv && !priv.use_sudo && !optional && !st.warned_missing_sudo then true
    else st.warned_missing_sudo
  let full_cmd :=
    if needsPriv && priv.use_sudo then
      if priv.requires_password && truthy priv.password then ["sudo", "-S"] ++ cmd
      else ["sudo", "-n"] ++ cmd
    else cmd
  let result : CommandResult :=
    match env.event with
    | .notFound =>
        { cmd := full_cmd,
          error := some ("Command not found: " ++ full_cmd.headD (cmd.headD "")),
          duration := some env.elapsed }
    | .timedOut pout perr =>
        { cmd := full_cmd, stdout := pyStrip pout, stderr := pyStrip perr,
          timed_out := true,
          error := some (timeoutMsg timeout full_cmd),
          duration := some env.elapsed }
    | .completed rc out err =>
        let stdout := pyStrip out
        let stderr := pyStrip err
        { cmd := full_cmd, stdout := stdout, stderr := stderr, returncode := some rc,
          duration := some env.elapsed,
          error := if rc = 0 then none
                   else some (pyOrStr stderr (pyOrStr stdout ("Exit code " ++ toString rc))) }
  (result, { priv := priv, warned_missing_sudo := warned, log := st.log ++ [result] })

/-- The arguments and environment of one guardrail call. -/
structure RunCall where
  cmd : List String := []
  timeout : ℚ := 10
  optional : Bool := false
  needs_root : Bool := false
  env : RunEnv := {}

/-- A sequence of guardrail calls threaded through the process state. -/
def runMany (calls : List RunCall) (st : RunState) : RunState :=
  calls.foldl (fun s c => (run c.cmd c.timeout c.optional c.needs_root c.env s).2) st

/-! ## The `main` flow, to the extent the claims observe it -/

/-- The environment `main` runs in. -/
structure MainEnv where
  priv : PrivEnv := {}
  missingTools : Bool := false

/-- The collector calls `main` performs once privilege negotiation and the
required-tool check succeed, in source order. -/
def collectorSequence : List String :=
  ["collect_system_info", "collect_cpu_info", "collect_memory_info", "free -m",
   "collect_storage", "collect_nvme", "collect_gpu"]

/-- Abstraction of `main(argv)` recording its exit code and which collectors
ran: argparse rejects an invalid `--sudo-mode` with exit status 2 before
anything else; `configure_privileges` runs next and a `SystemExit` it raises
is caught and returned as the exit code with no collector executed; a missing
required tool returns 1, also before any collector; otherwise all collectors
run and the report run returns 0. -/
def main_model (sudoMode : String) (promptSudo : Bool) (env : MainEnv) :
    Except PyError (Int × List String) :=
  if sudoMode ∉ (["auto", "skip", "require"] : List String) then .ok (2, [])
  else
    match configure_privileges sudoMode promptSudo env.priv
        { is_root := env.priv.geteuidZero } with
    | .error (.systemExit c) => .ok (c, [])
    | .error e => .error e
    | .ok _ => if env.missingTools then .ok (1, []) else .ok (0, collectorSequence)

/-! ## Helper lemmas -/

theorem startsWithU_two {a b : Char} {cs : List Char}
    (h : startsWithU [a, b] cs = true) : ∃ rest, cs = a :: b :: rest := by
  match cs with
  | [] => simp [startsWithU] at h
  | [c] => simp [startsWithU] at h
  | c :: d :: rest =>
      simp only [startsWithU, Bool.and_eq_true, decide_eq_true_eq] at h
      exact ⟨rest, by rw [h.1, h.2.1]⟩

theorem find?_reverse_of_split (p : Nat → Bool) (pre post : List Nat) (v : Nat)
    (hp : p v = true) (hpost : ∀ w ∈ post, p w = false) :
    (pre ++ v :: post).reverse.find? p = some v := by
  have hnone : post.reverse.find? p = none := by
    rw [List.find?_eq_none]
    intro x hx
    simp [hpost x (List.mem_reverse.mp hx)]
  rw [List.reverse_append, List.reverse_cons, List.append_assoc, List.find?_append, hnone]
  simp [List.find?_cons, hp]

theorem foldl_max_spec (vs : List Nat) (v : Nat) :
    vs.foldl Nat.max v ∈ v :: vs ∧ ∀ x ∈ v :: vs, x ≤ vs.foldl Nat.max v := by
  induction vs generalizing v with
  | nil => simp
  | cons a tl ih =>
      obtain ⟨hmem, hbound⟩ := ih (Nat.max v a)
      have hvm : Nat.max v a ≤ tl.foldl Nat.max (Nat.max v a) :=
        hbound _ (List.mem_cons_self _ _)
      rw [List.foldl_cons]
      constructor
      · rcases List.mem_cons.mp hmem with h | h
        · rw [h]
          rcases Nat.le_total v a with hc | hc
          · have hm2 : Nat.max v a = a := Nat.max_eq_right hc
            rw [hm2]; simp
          · have hm2 : Nat.max v a = v := Nat.max_eq_left hc
            rw [hm2]; simp
        · exact List.mem_cons_of_mem _ (List.mem_cons_of_mem _ h)
      · intro x hx
        rcases List.mem_cons.mp hx with h | h
        · have hle : x ≤ Nat.max v a := by rw [h]; exact Nat.le_max_left v a
          exact le_trans hle hvm
        · rcases List.mem_cons.mp h with h2 | h2
          · have hle : x ≤ Nat.max v a := by rw [h2]; exact Nat.le_max_right v a
            exact le_trans hle hvm
          · exact hbound x (List.mem_cons_of_mem _ h2)

/-! ## Claims -/

/-- C5: capacity text parsing maps "32 GB" to 32.0 and "512 MB" to 0.5 (at
both `parse_capacity` and the summation-site `parse_size_to_gb`), normalises
TB and PB by binary-prefix scaling (any matched TB unit scales by 1024, any
matched PB unit by 1024·1024, i.e. 1024 TB-equivalents), and yields an absent
value for absent/unparseable text at `parse_capacity` but 0.0 at the
summation-site `parse_size_to_gb`. -/
theorem capacity_parsing_spec :
    parse_capacity (some "32 GB") = some 32 ∧
    parse_capacity (some "512 MB") = some (1 / 2) ∧
    parse_size_to_gb (some "32 GB") = 32 ∧
    parse_size_to_gb (some "512 MB") = 1 / 2 ∧
    parse_capacity (some "2 TB") = some 2048 ∧
    parse_capacity (some "1 PB") = some 1048576 ∧
    (∀ (v : Nat) (u : List Char), startsWithU ("TB".data) (u.map Char.toUpper) = true →
      capacityFromUnit v u = some ((v : ℚ) * 1024)) ∧
    (∀ (v : Nat) (u : List Char), startsWithU ("PB".data) (u.map Char.toUpper) = true →
      capacityFromUnit v u = some ((v : ℚ) * 1024 * 1024)) ∧
    parse_capacity none = none ∧
    parse_capacity (some "") = none ∧
    parse_capacity (some "mystery") = none ∧
    parse_size_to_gb none = 0 ∧
    parse_size_to_gb (some "") = 0 ∧
    parse_size_to_gb (some "mystery") = 0 := by
  refine ⟨?_, ?_, ?_, ?_, ?_, ?_, ?_, ?_, rfl, by decide, by decide, rfl, by decide, by decide⟩
  · have h : capMatch ("32 GB".data) = some (['3', '2'], ['G', 'B']) := by decide
    simp [parse_capacity, h, capacityFromUnit, startsWithU, digitsToNat]
  · have h : capMatch ("512 MB".data) = some (['5', '1', '2'], ['M', 'B']) := by decide
    simp [parse_capacity, h, capacityFromUnit, startsWithU, digitsToNat]
    norm_num
  · have h : searchNumUnit true ["GB".data, "MB".data] ("32 GB".data)
        = some (32, "GB".data) := by decide
    have hc : containsSub ("No Module".data) ("32 GB".data) = false := by decide
    simp [parse_size_to_gb, h, hc]
  · have h : searchNumUnit true ["GB".data, "MB".data] ("512 MB".data)
        = some (512, "MB".data) := by decide
    have hc : containsSub ("No Module".data) ("512 MB".data) = false := by decide
    simp [parse_size_to_gb, h, hc]
    norm_num
  · have h : capMatch ("2 TB".data) = some (['2'], ['T', 'B']) := by decide
    simp [parse_capacity, h, capacityFromUnit, startsWithU, digitsToNat]
    norm_num
  · have h : capMatch ("1 PB".data) = some (['1'], ['P', 'B']) := by decide
    simp [parse_capacity, h, capacityFromUnit, startsWithU, digitsToNat]
    norm_num
  · intro v u hu
    obtain ⟨rest, hrest⟩ := startsWithU_two hu
    simp [capacityFromUnit, hrest, startsWithU]
  · intro v u hu
    obtain ⟨rest, hrest⟩ := startsWithU_two hu
    simp [capacityFromUnit, hrest, startsWithU]

/-- Witness for C5: the generic TB/PB scaling conjuncts applied at concrete
units. -/
theorem capacity_parsing_spec_witness :
    capacityFromUnit 2 ("TB".data) = some ((2 : ℚ) * 1024) ∧
      capacityFromUnit 3 ("PB".data) = some ((3 : ℚ) * 1024 * 1024) :=
  ⟨capacity_parsing_spec.2.2.2.2.2.2.1 2 ("TB".data) (by decide),
   capacity_parsing_spec.2.2.2.2.2.2.2.1 3 ("PB".data) (by decide)⟩

/-- C6: speed text parsing returns 4800 for "DDR5-4800"; absent text, or text
with no integer run, yields none; when the extracted integer sequence splits
as `pre ++ v :: post` with `v ≥ 1000` and everything after `v` below 1000
(i.e. `v` is the value ≥ 1000 found first when scanning from the end), the
result is `v`; when no extracted value reaches 1000 the result is the maximum
of all extracted values. -/
theorem speed_parsing_spec :
    parse_speed_mts (some "DDR5-4800") = some 4800 ∧
    parse_speed_mts none = none ∧
    (∀ t : String, extractedValues t = [] → parse_speed_mts (some t) = none) ∧
    (∀ (t : String) (pre post : List Nat) (v : Nat),
      extractedValues t = pre ++ v :: post → 1000 ≤ v → (∀ w ∈ post, w < 1000) →
      parse_speed_mts (some t) = some v) ∧
    (∀ t : String, extractedValues t ≠ [] → (∀ w ∈ extractedValues t, w < 1000) →
      ∃ r, parse_speed_mts (some t) = some r ∧ r ∈ extractedValues t ∧
        ∀ w ∈ extractedValues t, w ≤ r) := by
  refine ⟨by decide, rfl, ?_, ?_, ?_⟩
  · intro t h
    by_cases ht : t = "" <;> simp [parse_speed_mts, ht, h]
  · intro t pre post v hsplit hv hpost
    have hne : extractedValues t ≠ [] := by simp [hsplit]
    have ht : t ≠ "" := by
      intro ht
      rw [ht] at hne
      exact hne rfl
    have hfind : (extractedValues t).reverse.find? (fun w => decide (1000 ≤ w)) = some v := by
      rw [hsplit]
      exact find?_reverse_of_split _ pre post v (decide_eq_true hv)
        (fun w hw => decide_eq_false (Nat.not_le.mpr (hpost w hw)))
    have hie : (extractedValues t).isEmpty = false := by
      rw [hsplit]; cases pre <;> rfl
    simp only [parse_speed_mts]
    rw [if_neg ht, hie]
    simp only [Bool.false_eq_true, if_false, hfind]
  · intro t hne hsmall
    have ht : t ≠ "" := by
      intro ht
      rw [ht] at hne
      exact hne rfl
    have hfind : (extractedValues t).reverse.find? (fun w => decide (1000 ≤ w)) = none := by
      rw [List.find?_eq_none]
      intro x hx
      simp [Nat.not_le.mpr (hsmall x (List.mem_reverse.mp hx))]
    obtain ⟨v, vs, hvs⟩ : ∃ v vs, extractedValues t = v :: vs := by
      cases h : extractedValues t with
      | nil => exact absurd h hne
      | cons v vs => exact ⟨v, vs, rfl⟩
    have hie : (extractedValues t).isEmpty = false := by
      rw [hvs]; rfl
    refine ⟨vs.foldl Nat.max v, ?_, ?_, ?_⟩
    · simp only [parse_speed_mts]
      rw [if_neg ht, hie]
      simp only [Bool.false_eq_true, if_false, hfind]
      rw [hvs]
    · rw [hvs]; exact (foldl_max_spec vs v).1
    · rw [hvs]; exact (foldl_max_spec vs v).2

/-- Witness for C6: the hypothesised conjuncts applied at concrete texts. -/
theorem speed_parsing_spec_witness :
    parse_speed_mts (some "no digits") = none ∧
      parse_speed_mts (some "a2000b1500c") = some 1500 ∧
      (∃ r, parse_speed_mts (some "DDR3 800 667") = some r ∧
        r ∈ extractedValues "DDR3 800 667" ∧ ∀ w ∈ extractedValues "DDR3 800 667", w ≤ r) :=
  ⟨speed_parsing_spec.2.2.1 "no digits" (by decide),
   speed_parsing_spec.2.2.2.1 "a2000b1500c" [2000] [] 1500 (by decide) (by decide) (by decide),
   speed_parsing_spec.2.2.2.2 "DDR3 800 667" (by decide) (by decide)⟩

/-! Concrete inputs used by counterexamples and witnesses. -/

def cpuNone : CpuDict := {}

def memW1 : MemInfo := { devices := [], slot_count := some 2 }

def mW1 : Metrics := { ram_slots := 2, ram_populated := 0, ram_empty := 2 }

def modC1 : Module := { size := some "8 GB" }

def memC1 : MemInfo := { devices := [modC1, modC1], slot_count := some 1 }

/-- The slot-accounting, empty-slot and RAM-total fields of any metrics record
`metrics_from_data` produces, characterised in terms of the inputs (shared by
the proofs of the claims about those fields). -/
theorem metrics_mem_fields (cpu : CpuDict) (mem : MemInfo) (total : Option Nat)
    (gp : List String) (gn : List NvGpu) (dk : List Disk) (m : Metrics)
    (hm : metrics_from_data cpu mem total gp gn dk = some m) :
    m.ram_populated
        = ((mem.devices.filter (fun d => decide (0 < parse_size_to_gb d.size))).length : Int) ∧
    m.ram_slots = (if truthyI mem.slot_count then mem.slot_count.getD 0
                   else ((mem.devices.filter (fun d => truthy d.locator)).length : Int)) ∧
    m.ram_empty = max (m.ram_slots - m.ram_populated) 0 ∧
    m.ram_total_gb =
      (if liveTotalGb total = 0
       then (mem.devices.map (fun d => parse_size_to_gb d.size)).sum
       else liveTotalGb total) := by
  obtain ⟨a, ha, hfa⟩ := Option.map_eq_some'.mp hm
  obtain ⟨th, sk, cps, mx, cu, mi⟩ := a
  subst hfa
  refine ⟨rfl, ?_, ?_, rfl⟩
  · by_cases h : truthyI mem.slot_count = true <;> simp [h]
  · by_cases h : truthyI mem.slot_count = true <;> simp [h]

/-- C9: `metrics_from_data` never produces a negative empty-slot count, and
the empty count is clamped to exactly zero whenever the populated count
reaches or exceeds the slot count in use — the (known, non-zero) declared
slot count, or, when no declared count is usable, the locator-derived slot
count. -/
theorem ram_empty_clamped (cpu : CpuDict) (mem : MemInfo) (total : Option Nat)
    (gp : List String) (gn : List NvGpu) (dk : List Disk) (m : Metrics)
    (hm : metrics_from_data cpu mem total gp gn dk = some m) :
    0 ≤ m.ram_empty ∧
      (∀ s : Int, mem.slot_count = some s → s ≠ 0 → s ≤ m.ram_populated → m.ram_empty = 0) ∧
      (truthyI mem.slot_count = false →
        ((mem.devices.filter (fun d => truthy d.locator)).length : Int) ≤ m.ram_populated →
        m.ram_empty = 0) := by
  obtain ⟨-, hslots, hempty, -⟩ := metrics_mem_fields cpu mem total gp gn dk m hm
  refine ⟨?_, ?_, ?_⟩
  · rw [hempty]; exact le_max_right _ _
  · intro s hs hs0 hle
    have hslot : m.ram_slots = s := by
      rw [hslots, hs]
      simp [truthyI, hs0]
    rw [hempty, hslot]
    exact max_eq_right (sub_nonpos.mpr hle)
  · intro hdecl hle
    have hslot : m.ram_slots
        = ((mem.devices.filter (fun d => truthy d.locator)).length : Int) := by
      rw [hslots, hdecl]
      simp
    rw [hempty, hslot]
    exact max_eq_right (sub_nonpos.mpr hle)

def memC9 : MemInfo := { devices := [modC1] }

def mC9 : Metrics := { ram_total_gb := 8, ram_slots := 0, ram_populated := 1, ram_empty := 0,
                       ram_modules := [modC1] }

/-- Witness for C9, at an inventory with no declared slot count and one
positive-size module without a locator: the locator-derived slot count is 0,
the populated count 1, and the empty count is clamped to 0. -/
theorem ram_empty_clamped_witness : 0 ≤ mC9.ram_empty ∧ mC9.ram_empty = 0 := by
  have h8 : parse_size_to_gb (some "8 GB") = 8 := by
    have h : searchNumUnit true ["GB".data, "MB".data] ("8 GB".data)
        = some (8, "GB".data) := by decide
    have hc : containsSub ("No Module".data) ("8 GB".data) = false := by decide
    simp [parse_size_to_gb, h, hc]
  have hd : decide (0 < parse_size_to_gb (some "8 GB")) = true :=
    decide_eq_true (by rw [h8]; norm_num)
  have hcpu : cpuNumbers cpuNone = some (0, 1, 0, 0, 0, 0) := rfl
  have hmax : max ((0 : Int) - 1) 0 = 0 := max_eq_right (by norm_num)
  have hcm : cpuNone.modelName.getD "Unknown" = "Unknown" := rfl
  have har : cpuNone.architecture.getD "" = "" := rfl
  have hvi : cpuNone.virtualization.getD "" = "" := rfl
  have hm : metrics_from_data cpuNone memC9 none [] [] [] = some mC9 := by
    simp [metrics_from_data, hcpu, memC9, modC1, mC9, truthyI, truthy, hd, h8, hmax,
      hcm, har, hvi, liveTotalGb, pyOrS, parse_speed_mts]
  exact ⟨(ram_empty_clamped cpuNone memC9 none [] [] [] mC9 hm).1,
    (ram_empty_clamped cpuNone memC9 none [] [] [] mC9 hm).2.2 rfl (by decide)⟩

/-- C1 counterexample: with a declared slot count of 1 and two module records
parsing to a positive size, `metrics_from_data` yields populated = 2,
empty = 0, slots = 1, and 2 + 0 ≠ 1 — the invariant fails although the slot
count is known. -/
theorem slot_accounting_cex :
    (metrics_from_data cpuNone memC1 none [] [] []).map
        (fun m => (m.ram_populated, m.ram_empty, m.ram_slots)) = some (2, 0, 1) ∧
      ¬ ((2 : Int) + (0 : Int) = (1 : Int)) := by
  constructor
  · have h8 : parse_size_to_gb (some "8 GB") = 8 := by
      have h : searchNumUnit true ["GB".data, "MB".data] ("8 GB".data)
          = some (8, "GB".data) := by decide
      have hc : containsSub ("No Module".data) ("8 GB".data) = false := by decide
      simp [parse_size_to_gb, h, hc]
    have hd : decide (0 < parse_size_to_gb (some "8 GB")) = true :=
      decide_eq_true (by rw [h8]; norm_num)
    have hcpu : cpuNumbers cpuNone = some (0, 1, 0, 0, 0, 0) := rfl
    have hmax : max ((1 : Int) - 2) 0 = 0 := max_eq_right (by norm_num)
    simp [metrics_from_data, hcpu, memC1, modC1, truthyI, hd, hmax]
  · decide

/-- C1 amended: the invariant `ram_populated + ram_empty = ram_slots` holds
whenever the declared slot count is known (non-zero) and the number of
modules parsing to a positive size does not exceed it; the counterexample
above shows it fails when the populated count exceeds the declared count. -/
theorem slot_accounting_amended (cpu : CpuDict) (mem : MemInfo) (total : Option Nat)
    (gp : List String) (gn : List NvGpu) (dk : List Disk) (m : Metrics) (s : Int)
    (hm : metrics_from_data cpu mem total gp gn dk = some m)
    (hs : mem.slot_count = some s) (hs0 : s ≠ 0)
    (hpop : m.ram_populated ≤ s) :
    m.ram_populated + m.ram_empty = m.ram_slots := by
  obtain ⟨-, hslots, hempty, -⟩ := metrics_mem_fields cpu mem total gp gn dk m hm
  have hslot : m.ram_slots = s := by
    rw [hslots, hs]
    simp [truthyI, hs0]
  rw [hempty, hslot, max_eq_left (sub_nonneg.mpr hpop)]
  ring

/-- Witness for the amended C1, at an inventory with two declared slots and
no module records. -/
theorem slot_accounting_amended_witness :
    mW1.ram_populated + mW1.ram_empty = mW1.ram_slots :=
  slot_accounting_amended cpuNone memW1 none [] [] [] mW1 2 rfl rfl (by decide) (by decide)

/-- C7: the total-RAM figure is the live `free -m` total (divided by 1024)
whenever that total is present and non-zero, and is the sum of the parsed
per-module capacities exactly when the live total is absent or zero. -/
theorem ram_total_preference (cpu : CpuDict) (mem : MemInfo) (total : Option Nat)
    (gp : List String) (gn : List NvGpu) (dk : List Disk) (m : Metrics)
    (hm : metrics_from_data cpu mem total gp gn dk = some m) :
    (∀ n : Nat, total = some n → n ≠ 0 → m.ram_total_gb = (n : ℚ) / 1024) ∧
      ((total = none ∨ total = some 0) →
        m.ram_total_gb = (mem.devices.map (fun d => parse_size_to_gb d.size)).sum) := by
  obtain ⟨-, -, -, htotal⟩ := metrics_mem_fields cpu mem total gp gn dk m hm
  constructor
  · intro n hn hn0
    subst hn
    have hlive : ¬ ((n : ℚ) / 1024 = 0) := by
      rw [div_eq_zero_iff]
      push_neg
      exact ⟨Nat.cast_ne_zero.mpr hn0, by norm_num⟩
    simpa [liveTotalGb, hn0, hlive] using htotal
  · intro h
    rcases h with h | h <;> subst h <;> simpa [liveTotalGb] using htotal

/-- Witness for C7, with the live total absent: the fallback sum is used. -/
theorem ram_total_preference_witness :
    (∀ n : Nat, (none : Option Nat) = some n → n ≠ 0 → mW1.ram_total_gb = (n : ℚ) / 1024) ∧
      (((none : Option Nat) = none ∨ (none : Option Nat) = some 0) →
        mW1.ram_total_gb = (memW1.devices.map (fun d => parse_size_to_gb d.size)).sum) :=
  ram_total_preference cpuNone memW1 none [] [] [] mW1 rfl

/-- C10: the "LLM / ML" role never rates above "Fair": its rating is one of
"Fair", "Limited", "Not ideal", and the tiers "Good" and "Excellent" are
unreachable for this role whatever the metrics. -/
theorem llm_ml_tier_capped (m : Metrics) :
    ((role_rating m).llm_ml.rating = "Fair" ∨ (role_rating m).llm_ml.rating = "Limited" ∨
      (role_rating m).llm_ml.rating = "Not ideal") ∧
      (role_rating m).llm_ml.rating ≠ "Good" ∧ (role_rating m).llm_ml.rating ≠ "Excellent" := by
  simp only [role_rating, rateLlmMl]
  split_ifs <;> simp

/-- Every `run` path appends exactly the produced result, once, at the end of
the log. -/
theorem run_appends_once (cmd : List String) (timeout : ℚ) (optional needs_root : Bool)
    (env : RunEnv) (st : RunState) :
    (run cmd timeout optional needs_root env st).2.log
      = st.log ++ [(run cmd timeout optional needs_root env st).1] := rfl

/-- Every `run` path stamps the produced result with the elapsed
`perf_counter` delta. -/
theorem run_duration_elapsed (cmd : List String) (timeout : ℚ) (optional needs_root : Bool)
    (env : RunEnv) (st : RunState) :
    (run cmd timeout optional needs_root env st).1.duration = some env.elapsed := by
  rcases env with ⟨pe, ev, el⟩
  cases ev <;> rfl

theorem runMany_log_invariant (calls : List RunCall) (st : RunState)
    (hst : ∀ r ∈ st.log, ∃ d, r.duration = some d ∧ 0 ≤ d)
    (hcalls : ∀ c ∈ calls, 0 ≤ c.env.elapsed) :
    (runMany calls st).log.length = st.log.length + calls.length ∧
      ∀ r ∈ (runMany calls st).log, ∃ d, r.duration = some d ∧ 0 ≤ d := by
  induction calls generalizing st with
  | nil => simpa [runMany] using hst
  | cons c cs ih =>
      have hlog : (run c.cmd c.timeout c.optional c.needs_root c.env st).2.log
          = st.log ++ [(run c.cmd c.timeout c.optional c.needs_root c.env st).1] :=
        run_appends_once _ _ _ _ _ _
      have hst2 : ∀ r ∈ (run c.cmd c.timeout c.optional c.needs_root c.env st).2.log,
          ∃ d, r.duration = some d ∧ 0 ≤ d := by
        intro r hr
        rw [hlog] at hr
        rcases List.mem_append.mp hr with h | h
        · exact hst r h
        · rw [List.mem_singleton] at h
          subst h
          exact ⟨c.env.elapsed, run_duration_elapsed _ _ _ _ _ _,
            hcalls c (List.mem_cons_self _ _)⟩
      have hrm : runMany (c :: cs) st
          = runMany cs (run c.cmd c.timeout c.optional c.needs_root c.env st).2 := by
        simp [runMany]
      have hih := ih (run c.cmd c.timeout c.optional c.needs_root c.env st).2 hst2
        (fun x hx => hcalls x (List.mem_cons_of_mem _ hx))
      rw [hrm]
      refine ⟨?_, hih.2⟩
      rw [hih.1, hlog]
      simp
      omega

/-- C4: after any sequence of guardrail calls, whatever the mix of outcomes,
the log holds exactly one entry per call, every entry carries a non-negative
elapsed time (the clock deltas are non-negative because `perf_counter` is
monotone, which is the stated hypothesis), and each call appends its outcome
exactly once. -/
theorem execution_log_complete (calls : List RunCall)
    (hcalls : ∀ c ∈ calls, 0 ≤ c.env.elapsed) :
    (runMany calls {}).log.length = calls.length ∧
      (∀ r ∈ (runMany calls {}).log, ∃ d, r.duration = some d ∧ 0 ≤ d) ∧
      ∀ (c : RunCall) (s : RunState),
        (run c.cmd c.timeout c.optional c.needs_root c.env s).2.log
          = s.log ++ [(run c.cmd c.timeout c.optional c.needs_root c.env s).1] := by
  have h := runMany_log_invariant calls {} (by simp) hcalls
  exact ⟨by simpa using h.1, h.2, fun c s => run_appends_once _ _ _ _ _ _⟩

def c4calls : List RunCall :=
  [{ cmd := ["lscpu"], env := { event := .completed 0 "ok" "" } },
   { cmd := ["dmidecode"], needs_root := true, env := { event := .notFound, elapsed := 1 } },
   { cmd := ["lsblk"], env := { event := .timedOut "partial" "", elapsed := 2 } },
   { cmd := ["false"], env := { event := .completed 2 "" "boom", elapsed := 3 } }]

/-- Witness for C4: four calls covering success, executable-not-found,
timeout, and non-zero exit. -/
theorem execution_log_complete_witness :
    (runMany c4calls {}).log.length = c4calls.length ∧
      (∀ r ∈ (runMany c4calls {}).log, ∃ d, r.duration = some d ∧ 0 ≤ d) ∧
      ∀ (c : RunCall) (s : RunState),
        (run c.cmd c.timeout c.optional c.needs_root c.env s).2.log
          = s.log ++ [(run c.cmd c.timeout c.optional c.needs_root c.env s).1] :=
  execution_log_complete c4calls (by
    intro c hc
    simp only [c4calls, List.mem_cons, List.not_mem_nil, or_false] at hc
    rcases hc with h | h | h | h <;> subst h <;> norm_num)

def c3env : RunEnv := { event := .completed 2 "" "boom", elapsed := 1 }

/-- C3 counterexample: a guardrail execution completing with exit code 2 and
no timeout does NOT leave the failure-reason field absent — `run` stores the
stripped stderr there — refuting the claim that the failure is reflected only
through the derived success property. -/
theorem nonzero_exit_error_cex :
    (run ["false"] 1 false false c3env {}).1.returncode = some 2 ∧
      (run ["false"] 1 false false c3env {}).1.timed_out = false ∧
      (run ["false"] 1 false false c3env {}).1.error = some "boom" ∧
      ¬ ((run ["false"] 1 false false c3env {}).1.error = none) := by
  refine ⟨rfl, rfl, by decide, by decide⟩

/-- C3 amended: on a present, non-zero exit code with no timeout the
guardrail does not abort the call — the outcome is returned and appended to
the log — but it does record a failure reason (stderr, else stdout, else an
exit-code message), and the derived success property is false (both because
that reason is present and because the exit code is non-zero). -/
theorem nonzero_exit_records_error (cmd : List String) (timeout : ℚ)
    (optional needs_root : Bool) (env : RunEnv) (st : RunState) (rc : Int) (out err : String)
    (hev : env.event = .completed rc out err) (hrc : ¬ rc = 0) :
    (run cmd timeout optional needs_root env st).1.returncode = some rc ∧
      (run cmd timeout optional needs_root env st).1.timed_out = false ∧
      (run cmd timeout optional needs_root env st).1.error
        = some (pyOrStr (pyStrip err) (pyOrStr (pyStrip out) ("Exit code " ++ toString rc))) ∧
      (run cmd timeout optional needs_root env st).1.success = false ∧
      (run cmd timeout optional needs_root env st).2.log
        = st.log ++ [(run cmd timeout optional needs_root env st).1] := by
  refine ⟨?_, ?_, ?_, ?_, run_appends_once _ _ _ _ _ _⟩ <;>
    simp [run, hev, hrc, CommandResult.success]

/-- Witness for the amended C3, at the concrete exit-code-2 event. -/
theorem nonzero_exit_records_error_witness :
    (run ["false"] 1 false false c3env {}).1.returncode = some 2 ∧
      (run ["false"] 1 false false c3env {}).1.timed_out = false ∧
      (run ["false"] 1 false false c3env {}).1.error
        = some (pyOrStr (pyStrip "boom") (pyOrStr (pyStrip "") ("Exit code " ++ toString (2 : Int)))) ∧
      (run ["false"] 1 false false c3env {}).1.success = false ∧
      (run ["false"] 1 false false c3env {}).2.log
        = ({} : RunState).log ++ [(run ["false"] 1 false false c3env {}).1] :=
  nonzero_exit_records_error ["false"] 1 false false c3env {} 2 "" "boom" rfl (by decide)

def c2priv : PrivEnv := { promptedPassword := "hunter2" }

def c2env : MainEnv := { priv := c2priv }

/-- C2: under mode "require", with the process not root, no non-interactive
escalation, and an empty or rejected secret, `configure_privileges` raises
`SystemExit(1)`, and the whole `main` run exits with status 1 before any
collector executes. -/
theorem require_rejected_fatal (pp : Bool) (env : MainEnv) (st : PrivilegeState)
    (hroot : env.priv.geteuidZero = false)
    (hni : env.priv.sudoNoninteractiveOk = false)
    (hpw : env.priv.promptedPassword = "" ∨
      env.priv.validatePassword env.priv.promptedPassword = false) :
    configure_privileges "require" pp env.priv st = .error (.systemExit 1) ∧
      main_model "require" pp env = .ok (1, []) := by
  have hmode : pyLowerStr "require" = "require" := by decide
  have hcfg : ∀ s : PrivilegeState,
      configure_privileges "require" pp env.priv s = .error (.systemExit 1) := by
    intro s
    rcases hpw with h | h <;> simp [configure_privileges, hmode, hroot, hni, h]
  refine ⟨hcfg st, ?_⟩
  simp [main_model, hcfg]

/-- Witness for C2: a non-root environment whose validator rejects every
secret. -/
theorem require_rejected_fatal_witness :
    configure_privileges "require" false c2env.priv {} = .error (.systemExit 1) ∧
      main_model "require" false c2env = .ok (1, []) :=
  require_rejected_fatal false c2env {} rfl rfl (Or.inr rfl)

def mC8 : Metrics := { ram_total_gb := 64, ram_max_capacity_gb := some 64,
                       storage_total := 2, has_dedicated_gpu := true }

/-- C8 counterexample: a metrics record with no empty slots, RAM not below
the (known) platform maximum, two storage devices, a dedicated GPU, no
free-slot hint and no tooling gap — none of the claim's triggering conditions
— still yields a non-empty tip list (the at-maximum message), so the rendered
section does not carry the explicit no-suggestions signal. -/
theorem no_tips_signal_cex :
    ¬ (0 < mC8.ram_empty) ∧
      ¬ (mC8.ram_total_gb < mC8.ram_max_capacity_gb.getD 0) ∧
      1 < mC8.storage_total ∧
      mC8.has_dedicated_gpu = true ∧
      upgrade_suggestions mC8 [] "" ""
        = ["System is already at the reported maximum memory capacity."] ∧
      formatUpgradeSection (upgrade_suggestions mC8 [] "" "")
        = ["## Upgrade Opportunities",
           "- System is already at the reported maximum memory capacity.", ""] ∧
      ¬ ("- No obvious upgrades suggested by current readings."
          ∈ formatUpgradeSection (upgrade_suggestions mC8 [] "" "")) := by
  refine ⟨by decide, by decide, by decide, rfl, ?_, ?_, ?_⟩ <;> decide

/-- C8 amended: when none of the triggering conditions holds AND the RAM
total and platform maximum are not both known and non-zero (in that remaining
case the code emits an at-maximum or below-maximum message instead), the tip
list is empty and the rendered section carries the explicit no-suggestions
line, unambiguous with an absent computation. -/
theorem no_tips_signal_amended (m : Metrics) (disks : List Disk) (nvme_raw hint : String)
    (h1 : m.ram_empty ≤ 0)
    (h2 : m.ram_total_gb = 0 ∨ truthyQ m.ram_max_capacity_gb = false)
    (h3 : 1 < m.storage_total)
    (h4 : m.has_dedicated_gpu = true)
    (h5 : hint = "" ∨ containsSub ("likely free".data) (pyLowerStr hint).data = false)
    (h6 : nvme_raw = "" ∨ containsSub ("Device".data) nvme_raw.data = true) :
    upgrade_suggestions m disks nvme_raw hint = [] ∧
      formatUpgradeSection (upgrade_suggestions m disks nvme_raw hint)
        = ["## Upgrade Opportunities",
           "- No obvious upgrades suggested by current readings.", ""] := by
  have hg1 : ¬ (0 < m.ram_empty) := not_lt.mpr h1
  have hg3 : ¬ (m.storage_total ≤ 1) := not_le.mpr h3
  have hc2 : (!decide (m.ram_total_gb = 0) && truthyQ m.ram_max_capacity_gb) = false := by
    rcases h2 with h | h <;> simp [h]
  have hg5 : (!decide (hint = "")
      && containsSub ("likely free".data) (pyLowerStr hint).data) = false := by
    rcases h5 with h | h <;> simp [h]
  have hg6 : (!decide (nvme_raw = "") && !containsSub ("Device".data) nvme_raw.data) = false := by
    rcases h6 with h | h <;> simp [h]
  have htips : upgrade_suggestions m disks nvme_raw hint = [] := by
    simp [upgrade_suggestions, hg1, hg3, h4, hc2, hg5, hg6]
  exact ⟨htips, by simp [htips, formatUpgradeSection]⟩

def mW8 : Metrics := { storage_total := 2, has_dedicated_gpu := true }

/-- Witness for the amended C8: no triggering condition, RAM figures
unknown. -/
theorem no_tips_signal_amended_witness :
    upgrade_suggestions mW8 [] "" "" = [] ∧
      formatUpgradeSection (upgrade_suggestions mW8 [] "" "")
        = ["## Upgrade Opportunities",
           "- No obvious upgrades suggested by current readings.", ""] :=
  no_tips_signal_amended mW8 [] "" "" (by decide) (Or.inl rfl) (by decide) rfl
    (Or.inl rfl) (Or.inl rfl)

end HwAssessor
